import Mathlib

/-!
Verification development for the transcription orchestration engine of
`apps/whispering/src/lib/query/transcription.ts`.

The TypeScript source is shallowly embedded: the mutation bodies
(`transcribeRecording`, `transcribeRecordings`) and the helper
`transcribeBlob` become pure Lean functions over an explicit environment
`Env` that supplies the settings snapshot, the provider adapters, the
status-store update operation and the observability/notification sinks.
Each run returns its `Result` together with a trace of the side effects
it performed (status-store writes, notifications, analytics events,
adapter invocations).  Console logging in `transcribeBlob` is plain
debug output and is not modelled.  Wall-clock reads (`Date.now()`) are
modelled as two environment-supplied instants.
-/

/-- Transcription lifecycle status of a recording
(`UNTRANSCRIBED | TRANSCRIBING | DONE | FAILED`). -/
inductive TranscriptionStatus
  | UNTRANSCRIBED
  | TRANSCRIBING
  | DONE
  | FAILED
deriving DecidableEq, Repr

/-- The uniform error payload (`WhisperingErr` builds values with a
`title` and a `description`). -/
structure WhisperingError where
  title : String
  description : String
deriving DecidableEq, Repr

/-- The `wellcrafted` result union: `Ok(data)` or `Err(error)`. -/
inductive Result (α ε : Type) : Type
  | Ok : α → Result α ε
  | Err : ε → Result α ε
deriving DecidableEq, Repr

/-- Whether a result is the `Ok` variant. -/
def Result.isOk {α ε : Type} : Result α ε → Bool
  | .Ok _ => true
  | .Err _ => false

/-- An audio blob; only its size is ever inspected (for logging). -/
structure Blob where
  size : Nat
deriving DecidableEq, Repr

/-- Modelled from the spec: the `Recording` entity lives in the database
service (`$lib/services/db`), which is not under src/.  Per the data
model it carries a stable identifier, an optional raw audio payload, a
`transcriptionStatus`, and a `transcribedText` present only when
transcription has completed.  TypeScript object spread on a recording
(`...recording`) becomes a Lean structure update. -/
structure Recording where
  id : String
  blob : Option Blob
  transcriptionStatus : TranscriptionStatus
  transcribedText : Option String
deriving DecidableEq, Repr

/-- The transcription service selector values switched on in
`transcribeBlob`. -/
inductive Provider
  | OpenAI
  | Groq
  | speaches
  | ElevenLabs
  | Deepgram
  | whispercpp
deriving DecidableEq, Repr

/-- The settings snapshot: every `settings.value[...]` key read by
`transcribeBlob`.  `selectedTranscriptionService` is `none` when the
stored value matches no case of the switch (the `default` branch). -/
structure Settings where
  selectedTranscriptionService : Option Provider
  outputLanguage : String
  prompt : String
  temperature : String
  apiKeyOpenai : String
  openaiModel : String
  apiEndpointOpenai : Option String
  apiKeyGroq : String
  groqModel : String
  apiEndpointGroq : Option String
  speachesModelId : String
  speachesBaseUrl : String
  apiKeyElevenlabs : String
  elevenlabsModel : String
  apiKeyDeepgram : String
  deepgramModel : String
  whispercppModelPath : String
  whispercppUseGpu : Bool

/-- JavaScript truthiness of an optional string setting: `undefined` and
the empty string are falsy. -/
def truthy : Option String → Bool
  | none => false
  | some s => s ≠ ""

/-- Configuration assembled for `services.transcriptions.nativeOpenai`. -/
structure NativeOpenAIConfig where
  outputLanguage : String
  prompt : String
  temperature : String
  apiKey : String
  modelName : String
  baseURL : String
deriving DecidableEq, Repr

/-- Configuration assembled for `services.transcriptions.openai`. -/
structure OpenAIConfig where
  outputLanguage : String
  prompt : String
  temperature : String
  apiKey : String
  modelName : String
deriving DecidableEq, Repr

/-- Configuration assembled for `services.transcriptions.groq`; the
`baseURL` field is present only when the endpoint setting is truthy
(the conditional object spread). -/
structure GroqConfig where
  outputLanguage : String
  prompt : String
  temperature : String
  apiKey : String
  modelName : String
  baseURL : Option String
deriving DecidableEq, Repr

/-- Configuration assembled for `services.transcriptions.speaches`. -/
structure SpeachesConfig where
  outputLanguage : String
  prompt : String
  temperature : String
  modelId : String
  baseUrl : String
deriving DecidableEq, Repr

/-- Configuration assembled for `services.transcriptions.elevenlabs`. -/
structure ElevenLabsConfig where
  outputLanguage : String
  prompt : String
  temperature : String
  apiKey : String
  modelName : String
deriving DecidableEq, Repr

/-- Configuration assembled for `services.transcriptions.deepgram`. -/
structure DeepgramConfig where
  outputLanguage : String
  prompt : String
  temperature : String
  apiKey : String
  modelName : String
deriving DecidableEq, Repr

/-- Configuration assembled for `services.transcriptions.whispercpp`. -/
structure WhispercppConfig where
  outputLanguage : String
  prompt : String
  temperature : String
  modelPath : String
  useGpu : Bool
deriving DecidableEq, Repr

/-- The provider adapters (`services.transcriptions.*`): each maps a blob
and its configuration to a `TranscriptionResult`. -/
structure Services where
  nativeOpenai : Blob → NativeOpenAIConfig → Result String WhisperingError
  openai : Blob → OpenAIConfig → Result String WhisperingError
  groq : Blob → GroqConfig → Result String WhisperingError
  speaches : Blob → SpeachesConfig → Result String WhisperingError
  elevenlabs : Blob → ElevenLabsConfig → Result String WhisperingError
  deepgram : Blob → DeepgramConfig → Result String WhisperingError
  whispercpp : Blob → WhispercppConfig → Result String WhisperingError

/-- Identifier of a concrete adapter invocation, for the effect trace. -/
inductive AdapterId
  | nativeOpenai
  | openai
  | groq
  | speaches
  | elevenlabs
  | deepgram
  | whispercpp
deriving DecidableEq, Repr

/-- The analytics events emitted via `rpc.analytics.logEvent.execute`;
the `provider` field is the selected service (possibly `undefined`). -/
inductive AnalyticsEvent
  | transcription_requested (provider : Option Provider)
  | transcription_completed (provider : Option Provider) (duration : Int)
  | transcription_failed (provider : Option Provider)
      (error_title : String) (error_description : String)
deriving DecidableEq, Repr

/-- Modelled from the spec: the database update error type of
`recordings.updateRecording` lives in services not under src/; the spec
calls it `StorageError` and only its presence matters here. -/
structure DbServiceError where
  message : String
deriving DecidableEq, Repr

/-- Modelled from the spec: failures of the fire-and-forget sinks
(observability, notification); both sinks never throw back, so only the
discarded response value is modelled. -/
structure SinkError where
  message : String
deriving DecidableEq, Repr

/-- A user-facing warning passed to `notify.warning.execute`, with its
`more-details` action error. -/
structure Notification where
  title : String
  description : String
  actionError : DbServiceError
deriving DecidableEq, Repr

/-- The environment of one orchestrator invocation: the settings
snapshot, the adapters, the status-store update response, the sink
responses (both discarded by the source), and the two `Date.now()`
instants. -/
structure Env where
  settings : Settings
  services : Services
  updateRecording : Recording → Option DbServiceError
  logEventResult : AnalyticsEvent → Option SinkError
  notifyResult : Notification → Option SinkError
  timeAtStart : Int
  timeAtEnd : Int

/-- The error returned by the `default` branch of the provider switch. -/
def noProviderError : WhisperingError :=
  { title := "⚠️ No transcription service selected"
    description := "Please select a transcription service in settings." }

/-- The error returned when `recording.blob` is absent. -/
def missingBlobError : WhisperingError :=
  { title := "⚠️ Recording blob not found"
    description := "Your recording doesn\x27t have a blob to transcribe." }

/-- The switch over `selectedService` inside `transcribeBlob`: assembles
the per-provider configuration from the settings snapshot and invokes
the matching adapter; the `default` branch returns the no-provider
error without touching any adapter.  Also reports which adapters were
invoked. -/
def dispatch (env : Env) (blob : Blob) :
    Result String WhisperingError × List AdapterId :=
  match env.settings.selectedTranscriptionService with
  | some .OpenAI =>
    if truthy env.settings.apiEndpointOpenai then
      (env.services.nativeOpenai blob
        { outputLanguage := env.settings.outputLanguage
          prompt := env.settings.prompt
          temperature := env.settings.temperature
          apiKey := env.settings.apiKeyOpenai
          modelName := env.settings.openaiModel
          baseURL := env.settings.apiEndpointOpenai.getD "" },
       [.nativeOpenai])
    else
      (env.services.openai blob
        { outputLanguage := env.settings.outputLanguage
          prompt := env.settings.prompt
          temperature := env.settings.temperature
          apiKey := env.settings.apiKeyOpenai
          modelName := env.settings.openaiModel },
       [.openai])
  | some .Groq =>
    (env.services.groq blob
      { outputLanguage := env.settings.outputLanguage
        prompt := env.settings.prompt
        temperature := env.settings.temperature
        apiKey := env.settings.apiKeyGroq
        modelName := env.settings.groqModel
        baseURL :=
          if truthy env.settings.apiEndpointGroq then
            env.settings.apiEndpointGroq
          else none },
     [.groq])
  | some .speaches =>
    (env.services.speaches blob
      { outputLanguage := env.settings.outputLanguage
        prompt := env.settings.prompt
        temperature := env.settings.temperature
        modelId := env.settings.speachesModelId
        baseUrl := env.settings.speachesBaseUrl },
     [.speaches])
  | some .ElevenLabs =>
    (env.services.elevenlabs blob
      { outputLanguage := env.settings.outputLanguage
        prompt := env.settings.prompt
        temperature := env.settings.temperature
        apiKey := env.settings.apiKeyElevenlabs
        modelName := env.settings.elevenlabsModel },
     [.elevenlabs])
  | some .Deepgram =>
    (env.services.deepgram blob
      { outputLanguage := env.settings.outputLanguage
        prompt := env.settings.prompt
        temperature := env.settings.temperature
        apiKey := env.settings.apiKeyDeepgram
        modelName := env.settings.deepgramModel },
     [.deepgram])
  | some .whispercpp =>
    (env.services.whispercpp blob
      { outputLanguage := env.settings.outputLanguage
        prompt := env.settings.prompt
        temperature := env.settings.temperature
        modelPath := env.settings.whispercppModelPath
        useGpu := env.settings.whispercppUseGpu },
     [.whispercpp])
  | none => (.Err noProviderError, [])

/-- The terminal analytics event logged after the switch: `failed` with
the error fields, or `completed` with the elapsed duration. -/
def terminalEvent (provider : Option Provider) (duration : Int) :
    Result String WhisperingError → AnalyticsEvent
  | .Err e => .transcription_failed provider e.title e.description
  | .Ok _ => .transcription_completed provider duration

/-- The effect trace of a `transcribeBlob` run: analytics events in
emission order and adapter invocations. -/
structure BlobTrace where
  events : List AnalyticsEvent
  adapterCalls : List AdapterId
deriving DecidableEq, Repr

/-- `transcribeBlob(blob)`: reads the selected service, logs the
`transcription_requested` event, runs the provider switch, then logs
the terminal event with the elapsed duration, and returns the switch
result unchanged.  Both `logEvent` responses are discarded
(fire-and-forget). -/
def transcribeBlob (env : Env) (blob : Blob) :
    Result String WhisperingError × BlobTrace :=
  let selectedService := env.settings.selectedTranscriptionService
  let requestedEvent := AnalyticsEvent.transcription_requested selectedService
  let _ := env.logEventResult requestedEvent
  let dispatched := dispatch env blob
  let transcriptionResult := dispatched.1
  let duration := env.timeAtEnd - env.timeAtStart
  let terminal := terminalEvent selectedService duration transcriptionResult
  let _ := env.logEventResult terminal
  (transcriptionResult,
   { events := [requestedEvent, terminal], adapterCalls := dispatched.2 })

/-- The effect trace of a `transcribeRecording` run: status-store writes
(the full recording snapshots passed to `updateRecording`) in order,
notifications, analytics events, adapter invocations. -/
structure RecTrace where
  updates : List Recording
  notifications : List Notification
  events : List AnalyticsEvent
  adapterCalls : List AdapterId
deriving DecidableEq, Repr

/-- `transcribeRecording(recording)`: missing-blob precondition, then
best-effort `TRANSCRIBING` write (failure becomes a warning and the
flow continues), then `transcribeBlob`; on its failure a best-effort
`FAILED` write (failure becomes a warning) and the error is returned
unchanged; on success a best-effort `DONE` write carrying the text
(failure becomes a warning) and `Ok(text)` is returned. -/
def transcribeRecording (env : Env) (recording : Recording) :
    Result String WhisperingError × RecTrace :=
  match recording.blob with
  | none =>
    (.Err missingBlobError,
     { updates := [], notifications := [], events := [], adapterCalls := [] })
  | some blob =>
    let transcribingWrite :=
      { recording with transcriptionStatus := .TRANSCRIBING }
    let setRecordingTranscribingError := env.updateRecording transcribingWrite
    let transcribingNotifications :=
      match setRecordingTranscribingError with
      | some e =>
        [{ title := "⚠️ Unable to set recording transcription status to transcribing"
           description := "Continuing with the transcription process..."
           actionError := e }]
      | none => []
    let blobRun := transcribeBlob env blob
    match blobRun.1 with
    | .Err transcribeError =>
      let failedWrite := { recording with transcriptionStatus := .FAILED }
      let setFailedError := env.updateRecording failedWrite
      let failedNotifications :=
        match setFailedError with
        | some e =>
          [{ title := "⚠️ Unable to update recording after transcription"
             description := "Transcription failed but unable to update recording\x27s transcription status in database"
             actionError := e }]
        | none => []
      (.Err transcribeError,
       { updates := [transcribingWrite, failedWrite]
         notifications := transcribingNotifications ++ failedNotifications
         events := blobRun.2.events
         adapterCalls := blobRun.2.adapterCalls })
    | .Ok transcribedText =>
      let doneWrite :=
        { recording with
            transcribedText := some transcribedText
            transcriptionStatus := .DONE }
      let setDoneError := env.updateRecording doneWrite
      let doneNotifications :=
        match setDoneError with
        | some e =>
          [{ title := "⚠️ Unable to update recording after transcription"
             description := "Transcription completed but unable to update recording\x27s transcribed text and status in database"
             actionError := e }]
        | none => []
      (.Ok transcribedText,
       { updates := [transcribingWrite, doneWrite]
         notifications := transcribingNotifications ++ doneNotifications
         events := blobRun.2.events
         adapterCalls := blobRun.2.adapterCalls })

/-- One item of the batch map in `transcribeRecordings`: the missing-blob
precondition, else `transcribeBlob` on the payload.  No status-store
write occurs on this path. -/
def transcribeRecordingsItem (env : Env) (recording : Recording) :
    Result String WhisperingError × BlobTrace :=
  match recording.blob with
  | none => (.Err missingBlobError, { events := [], adapterCalls := [] })
  | some blob => transcribeBlob env blob

/-- The partition of the per-item results: `oks` and `errs`. -/
structure Partitioned where
  oks : List String
  errs : List WhisperingError
deriving DecidableEq, Repr

/-- Modelled from the spec: `partitionResults` is imported from the
external `wellcrafted/result` package, whose source is not under src/;
per the spec it partitions the collected per-item results into a
successes sequence and a failures sequence preserving input order. -/
def partitionResults (rs : List (Result String WhisperingError)) :
    Partitioned :=
  { oks := rs.filterMap fun r =>
      match r with
      | .Ok t => some t
      | .Err _ => none
    errs := rs.filterMap fun r =>
      match r with
      | .Ok _ => none
      | .Err e => some e }

/-- `transcribeRecordings(recordings)`: maps every recording through the
per-item step (all dispatched concurrently in the source; each item is
independent, so the trace is their traces in input order), collects the
results preserving input order, partitions them, and returns
`Ok(partitionedResults)` unconditionally. -/
def transcribeRecordings (env : Env) (recs : List Recording) :
    Result Partitioned WhisperingError × RecTrace :=
  let itemRuns := recs.map fun r => transcribeRecordingsItem env r
  let results := itemRuns.map Prod.fst
  let partitionedResults := partitionResults results
  (.Ok partitionedResults,
   { updates := []
     notifications := []
     events := (itemRuns.map fun run => run.2.events).flatten
     adapterCalls := (itemRuns.map fun run => run.2.adapterCalls).flatten })

/-! Concrete fixtures used by witnesses and counterexamples. -/

/-- A concrete 16 KB audio blob. -/
def blob0 : Blob := { size := 16384 }

/-- A settings snapshot with no transcription service selected. -/
def settingsBase : Settings :=
  { selectedTranscriptionService := none
    outputLanguage := "en"
    prompt := ""
    temperature := "0"
    apiKeyOpenai := "sk-openai"
    openaiModel := "whisper-1"
    apiEndpointOpenai := none
    apiKeyGroq := "gsk-groq"
    groqModel := "whisper-large-v3"
    apiEndpointGroq := none
    speachesModelId := "speaches-model"
    speachesBaseUrl := "http://localhost:8000"
    apiKeyElevenlabs := "el-key"
    elevenlabsModel := "scribe_v1"
    apiKeyDeepgram := "dg-key"
    deepgramModel := "nova-3"
    whispercppModelPath := "/models/ggml-base.bin"
    whispercppUseGpu := false }

/-- The base settings with the Groq service selected. -/
def settingsGroq : Settings :=
  { settingsBase with selectedTranscriptionService := some .Groq }

/-- Adapters that all succeed with the text "hello world". -/
def servicesOk : Services :=
  { nativeOpenai := fun _ _ => .Ok "hello world"
    openai := fun _ _ => .Ok "hello world"
    groq := fun _ _ => .Ok "hello world"
    speaches := fun _ _ => .Ok "hello world"
    elevenlabs := fun _ _ => .Ok "hello world"
    deepgram := fun _ _ => .Ok "hello world"
    whispercpp := fun _ _ => .Ok "hello world" }

/-- A concrete adapter failure. -/
def failErr : WhisperingError :=
  { title := "❌ Transcription error"
    description := "The adapter rejected the audio." }

/-- Adapters that all fail with `failErr`. -/
def servicesFail : Services :=
  { nativeOpenai := fun _ _ => .Err failErr
    openai := fun _ _ => .Err failErr
    groq := fun _ _ => .Err failErr
    speaches := fun _ _ => .Err failErr
    elevenlabs := fun _ _ => .Err failErr
    deepgram := fun _ _ => .Err failErr
    whispercpp := fun _ _ => .Err failErr }

/-- Groq selected, succeeding adapters, healthy status store and sinks. -/
def envOk : Env :=
  { settings := settingsGroq
    services := servicesOk
    updateRecording := fun _ => none
    logEventResult := fun _ => none
    notifyResult := fun _ => none
    timeAtStart := 0
    timeAtEnd := 50 }

/-- Like `envOk` but every status-store write fails. -/
def envUpdateFails : Env :=
  { envOk with updateRecording := fun _ => some { message := "db down" } }

/-- Like `envOk` but every adapter fails. -/
def envFail : Env :=
  { envOk with services := servicesFail }

/-- Failing adapters and a failing status store. -/
def envFailUpd : Env :=
  { envFail with updateRecording := fun _ => some { message := "db down" } }

/-- Succeeding adapters but no transcription service selected. -/
def envNoProvider : Env :=
  { envOk with settings := settingsBase }

/-- An untranscribed recording with a payload. -/
def rec0 : Recording :=
  { id := "r1"
    blob := some blob0
    transcriptionStatus := .UNTRANSCRIBED
    transcribedText := none }

/-- A recording with no audio payload. -/
def recNoBlob : Recording := { rec0 with id := "r2", blob := none }

/-- A recording that already carries text from an earlier `DONE` run. -/
def recOld : Recording :=
  { rec0 with id := "r3", transcriptionStatus := .DONE, transcribedText := some "old" }

/-- Two distinct recordings sharing the same audio payload. -/
def recA5 : Recording := { rec0 with id := "a" }

/-- Second of the two distinct recordings sharing a payload. -/
def recB5 : Recording := { rec0 with id := "b" }

/-- C6: a recording with an absent audio blob yields `Err(missingBlobError)`
and zero status-store writes. -/
theorem C6_missing_blob_no_writes (env : Env) (recording : Recording)
    (hb : recording.blob = none) :
    (transcribeRecording env recording).1 = .Err missingBlobError ∧
    (transcribeRecording env recording).2.updates = [] := by
  unfold transcribeRecording
  rw [hb]
  exact ⟨rfl, rfl⟩

/-- C6 witness: the blob-less fixture under the healthy environment. -/
theorem C6_missing_blob_no_writes_witness :
    (transcribeRecording envOk recNoBlob).1 = .Err missingBlobError ∧
    (transcribeRecording envOk recNoBlob).2.updates = [] :=
  C6_missing_blob_no_writes envOk recNoBlob rfl

/-- C7: the batch path performs zero status-store writes (and emits no
notifications) for every input list. -/
theorem C7_batch_no_status_writes (env : Env) (recs : List Recording) :
    (transcribeRecordings env recs).2.updates = [] ∧
    (transcribeRecordings env recs).2.notifications = [] :=
  ⟨rfl, rfl⟩

/-- C8: the batch call itself always returns `Ok` at the call level,
carrying the partition of the per-item results; per-item failures never
become a call-level error. -/
theorem C8_batch_call_level_ok (env : Env) (recs : List Recording) :
    ((transcribeRecordings env recs).1).isOk = true ∧
    (transcribeRecordings env recs).1 =
      .Ok (partitionResults
        (recs.map fun r => (transcribeRecordingsItem env r).1)) := by
  refine ⟨rfl, ?_⟩
  simp only [transcribeRecordings, List.map_map]
  rfl

/-- C10: a recording with an absent audio blob yields zero analytics
events and zero notifications. -/
theorem C10_missing_blob_no_events (env : Env) (recording : Recording)
    (hb : recording.blob = none) :
    (transcribeRecording env recording).2.events = [] ∧
    (transcribeRecording env recording).2.notifications = [] := by
  unfold transcribeRecording
  rw [hb]
  exact ⟨rfl, rfl⟩

/-- C10 witness: the blob-less fixture under the healthy environment. -/
theorem C10_missing_blob_no_events_witness :
    (transcribeRecording envOk recNoBlob).2.events = [] ∧
    (transcribeRecording envOk recNoBlob).2.notifications = [] :=
  C10_missing_blob_no_events envOk recNoBlob rfl

/-- C1: with a payload present, when the provider switch yields
`Ok(text)` the call returns `Ok(text)` and the final status-store write
is the `DONE` snapshot carrying `text`, for every environment — in
particular regardless of whether any status-store write failed. -/
theorem C1_adapter_success_final_done (env : Env) (recording : Recording)
    (blob : Blob) (text : String)
    (hb : recording.blob = some blob)
    (hs : (dispatch env blob).1 = .Ok text) :
    (transcribeRecording env recording).1 = .Ok text ∧
    (transcribeRecording env recording).2.updates.getLast? =
      some { recording with
               transcribedText := some text
               transcriptionStatus := .DONE } := by
  have hblob : (transcribeBlob env blob).1 = .Ok text := hs
  unfold transcribeRecording
  rw [hb]
  simp only [hblob]
  exact ⟨trivial, rfl⟩

/-- C1 witness: succeeding Groq adapter with every status-store write
failing still returns the text and last attempts the `DONE` write. -/
theorem C1_adapter_success_final_done_witness :
    rec0.blob = some blob0 ∧
    (dispatch envUpdateFails blob0).1 = .Ok "hello world" ∧
    (transcribeRecording envUpdateFails rec0).1 = .Ok "hello world" ∧
    (transcribeRecording envUpdateFails rec0).2.updates.getLast? =
      some { rec0 with
               transcribedText := some "hello world"
               transcriptionStatus := .DONE } := by
  have h :=
    C1_adapter_success_final_done envUpdateFails rec0 blob0 "hello world" rfl rfl
  exact ⟨rfl, rfl, h.1, h.2⟩

/-- C2: with a payload present, when the provider switch yields a
failure the call returns exactly that failure, the final status-store
write is the `FAILED` snapshot, and if that write fails the
corresponding warning is routed to the notification sink while the
returned result is unchanged. -/
theorem C2_adapter_failure_propagates (env : Env) (recording : Recording)
    (blob : Blob) (e : WhisperingError)
    (hb : recording.blob = some blob)
    (he : (dispatch env blob).1 = .Err e) :
    (transcribeRecording env recording).1 = .Err e ∧
    (transcribeRecording env recording).2.updates.getLast? =
      some { recording with transcriptionStatus := .FAILED } ∧
    ∀ dbErr : DbServiceError,
      env.updateRecording { recording with transcriptionStatus := .FAILED } =
        some dbErr →
      { title := "⚠️ Unable to update recording after transcription"
        description := "Transcription failed but unable to update recording\x27s transcription status in database"
        actionError := dbErr } ∈
        (transcribeRecording env recording).2.notifications := by
  have hblob : (transcribeBlob env blob).1 = .Err e := he
  unfold transcribeRecording
  rw [hb]
  simp only [hblob]
  refine ⟨trivial, rfl, ?_⟩
  intro dbErr hw
  rw [hw]
  simp

/-- C2 witness: failing adapter and failing status store — the adapter
error is returned unchanged and the failed `FAILED` write is notified. -/
theorem C2_adapter_failure_propagates_witness :
    (transcribeRecording envFailUpd rec0).1 = .Err failErr ∧
    (transcribeRecording envFailUpd rec0).2.updates.getLast? =
      some { rec0 with transcriptionStatus := .FAILED } ∧
    { title := "⚠️ Unable to update recording after transcription"
      description := "Transcription failed but unable to update recording\x27s transcription status in database"
      actionError := { message := "db down" } } ∈
      (transcribeRecording envFailUpd rec0).2.notifications := by
  have h := C2_adapter_failure_propagates envFailUpd rec0 blob0 failErr rfl rfl
  exact ⟨h.1, h.2.1, h.2.2 { message := "db down" } rfl⟩

/-- C3 counterexample: with a payload present and no provider selected,
the call does return `Err(noProviderError)` without touching any
adapter, but it performs two status-store writes (`TRANSCRIBING`, then
`FAILED`) — refuting the claim that no status-store mutation occurs. -/
theorem C3_counterexample :
    (transcribeRecording envNoProvider rec0).1 = .Err noProviderError ∧
    (transcribeRecording envNoProvider rec0).2.adapterCalls = [] ∧
    (transcribeRecording envNoProvider rec0).2.updates =
      [{ rec0 with transcriptionStatus := .TRANSCRIBING },
       { rec0 with transcriptionStatus := .FAILED }] ∧
    (transcribeRecording envNoProvider rec0).2.updates ≠ [] := by
  refine ⟨rfl, rfl, rfl, ?_⟩
  decide

/-- C3 as amended: with a payload present and no provider selected, the
call returns `Err(noProviderError)` and invokes no adapter, but the
`TRANSCRIBING` write precedes provider resolution and the no-provider
failure then drives the `FAILED` write. -/
theorem C3_amended_no_provider (env : Env) (recording : Recording)
    (blob : Blob)
    (hb : recording.blob = some blob)
    (hp : env.settings.selectedTranscriptionService = none) :
    (transcribeRecording env recording).1 = .Err noProviderError ∧
    (transcribeRecording env recording).2.adapterCalls = [] ∧
    (transcribeRecording env recording).2.updates =
      [{ recording with transcriptionStatus := .TRANSCRIBING },
       { recording with transcriptionStatus := .FAILED }] := by
  have hres : (transcribeBlob env blob).1 = .Err noProviderError := by
    simp only [transcribeBlob, dispatch, hp]
  have hcalls : (transcribeBlob env blob).2.adapterCalls = [] := by
    simp only [transcribeBlob, dispatch, hp]
  unfold transcribeRecording
  rw [hb]
  simp only [hres, hcalls]
  exact ⟨trivial, trivial, trivial⟩

/-- C3 amended witness: the concrete no-provider environment. -/
theorem C3_amended_no_provider_witness :
    rec0.blob = some blob0 ∧
    envNoProvider.settings.selectedTranscriptionService = none ∧
    (transcribeRecording envNoProvider rec0).1 = .Err noProviderError ∧
    (transcribeRecording envNoProvider rec0).2.updates =
      [{ rec0 with transcriptionStatus := .TRANSCRIBING },
       { rec0 with transcriptionStatus := .FAILED }] := by
  have h := C3_amended_no_provider envNoProvider rec0 blob0 rfl rfl
  exact ⟨rfl, rfl, h.1, h.2.2⟩

/-- C4 counterexample: transcribing a recording that still carries text
from an earlier `DONE` run — the first status-store write sets status
`TRANSCRIBING` while its `transcribedText` is still set, refuting the
if-and-only-if as stated. -/
theorem C4_counterexample :
    (transcribeRecording envOk recOld).2.updates.head? =
      some { recOld with transcriptionStatus := .TRANSCRIBING } ∧
    ({ recOld with transcriptionStatus := .TRANSCRIBING } : Recording).transcribedText
      = some "old" ∧
    ({ recOld with transcriptionStatus := .TRANSCRIBING } : Recording).transcriptionStatus
      ≠ .DONE := by
  refine ⟨rfl, rfl, ?_⟩
  decide

/-- C4 as amended: the `DONE` write sets `transcribedText` to the new
text, while the `TRANSCRIBING` and `FAILED` writes carry the input
snapshot's `transcribedText` unchanged; hence when the input recording
has no `transcribedText`, every write satisfies "text set iff status
written is `DONE`". -/
theorem C4_amended_text_iff_done (env : Env) (recording : Recording)
    (blob : Blob)
    (hb : recording.blob = some blob)
    (ht : recording.transcribedText = none) :
    ((transcribeRecording env recording).2.updates.all fun w =>
      w.transcribedText.isSome ==
        decide (w.transcriptionStatus = TranscriptionStatus.DONE)) = true := by
  unfold transcribeRecording
  rw [hb]
  cases hres : (transcribeBlob env blob).1 with
  | Ok text => simp only [hres]; simp [ht]
  | Err e => simp only [hres]; simp [ht]

/-- C4 amended witness: the healthy environment on an untranscribed
recording. -/
theorem C4_amended_text_iff_done_witness :
    rec0.blob = some blob0 ∧
    rec0.transcribedText = none ∧
    ((transcribeRecording envOk rec0).2.updates.all fun w =>
      w.transcribedText.isSome ==
        decide (w.transcriptionStatus = TranscriptionStatus.DONE)) = true :=
  ⟨rfl, rfl, C4_amended_text_iff_done envOk rec0 blob0 rfl rfl⟩

/-- C5 counterexample: two distinct recordings with the same payload
produce identical batch outcomes, so the outcome cannot pair a success
with its originating recording as the claim states. -/
theorem C5_counterexample :
    recA5 ≠ recB5 ∧
    transcribeRecordings envOk [recA5] = transcribeRecordings envOk [recB5] :=
  ⟨by decide, rfl⟩

/-- C5 as amended: the batch call returns `Ok` of the partition of the
per-item results, where `oks` are the transcribed texts of the
succeeding items in input order and `errs` are the errors of the
failing items in input order; items are correlated with the input only
by order, not paired with their recordings. -/
theorem C5_amended_partition_order (env : Env) (recs : List Recording) :
    (transcribeRecordings env recs).1 =
      .Ok { oks := recs.filterMap fun r =>
              match (transcribeRecordingsItem env r).1 with
              | .Ok t => some t
              | .Err _ => none
            errs := recs.filterMap fun r =>
              match (transcribeRecordingsItem env r).1 with
              | .Ok _ => none
              | .Err e => some e } := by
  unfold transcribeRecordings partitionResults
  simp only [List.map_map, List.filterMap_map]
  rfl

/-- Every branch of the provider switch invokes exactly one adapter. -/
theorem dispatch_calls_length_one (env : Env) (blob : Blob) (p : Provider)
    (hp : env.settings.selectedTranscriptionService = some p) :
    (dispatch env blob).2.length = 1 := by
  unfold dispatch
  rw [hp]
  cases p <;> try rfl
  by_cases hcond : truthy env.settings.apiEndpointOpenai = true <;> simp [hcond]

/-- C9: when a provider is selected, `transcribeBlob` emits exactly the
`requested` event followed by exactly one terminal event (`completed`
with the elapsed duration on success, `failed` with the error fields on
failure), invokes exactly one adapter between them, and its entire
output is unchanged under any replacement of the observability sink's
response. -/
theorem C9_observability_events (env : Env) (blob : Blob) (p : Provider)
    (f : AnalyticsEvent → Option SinkError)
    (hp : env.settings.selectedTranscriptionService = some p) :
    (transcribeBlob env blob).2.events =
      [AnalyticsEvent.transcription_requested (some p),
       terminalEvent (some p) (env.timeAtEnd - env.timeAtStart)
         (transcribeBlob env blob).1] ∧
    (transcribeBlob env blob).2.adapterCalls.length = 1 ∧
    transcribeBlob { env with logEventResult := f } blob =
      transcribeBlob env blob := by
  refine ⟨?_, ?_, rfl⟩
  · simp only [transcribeBlob, hp]
  · exact dispatch_calls_length_one env blob p hp

/-- C9 witness: the healthy Groq environment with a rejecting sink. -/
theorem C9_observability_events_witness :
    envOk.settings.selectedTranscriptionService = some Provider.Groq ∧
    (transcribeBlob envOk blob0).2.events =
      [AnalyticsEvent.transcription_requested (some Provider.Groq),
       terminalEvent (some Provider.Groq) (envOk.timeAtEnd - envOk.timeAtStart)
         (transcribeBlob envOk blob0).1] ∧
    (transcribeBlob envOk blob0).2.adapterCalls.length = 1 ∧
    transcribeBlob
        { envOk with logEventResult := fun _ => some { message := "sink down" } }
        blob0 =
      transcribeBlob envOk blob0 := by
  have h :=
    C9_observability_events envOk blob0 Provider.Groq
      (fun _ => some { message := "sink down" }) rfl
  exact ⟨rfl, h.1, h.2.1, h.2.2⟩
